import Mathlib

/-!
Verification of the Ashley chat front-end (`src/Ashley/static/app.js`, with
the overlay-free variant in `src/unnamed/part_000`).  The script's `send()`
function is embedded as a function from an environment (the prompt field
value, the fetch outcome, the streamed byte chunks) to the list of DOM
side effects it performs, in order.  The browser's `TextDecoder` (UTF-8,
non-fatal) is modelled by the WHATWG UTF-8 decoder state machine.
-/

namespace Ashley

/-! ### The WHATWG incremental UTF-8 decoder (model of `TextDecoder`) -/

/-- State of the WHATWG UTF-8 decoder between bytes: the partially
assembled code point, how many continuation bytes are still needed and
how many have been seen, and the admissible range for the next
continuation byte. -/
structure DecState where
  codepoint : Nat
  bytesNeeded : Nat
  bytesSeen : Nat
  lower : Nat
  upper : Nat
deriving Repr, DecidableEq

/-- Decoder start state. -/
def DecState.init : DecState :=
  { codepoint := 0, bytesNeeded := 0, bytesSeen := 0, lower := 0x80, upper := 0xBF }

/-- U+FFFD, emitted for invalid input (the decoder is in non-fatal mode). -/
def repl : Char := Char.ofNat 0xFFFD

/-- Handle one byte from the start state (`bytesNeeded = 0`): ASCII is
emitted directly, lead bytes of 2-, 3- and 4-byte sequences set up the
continuation window, and anything else is invalid. -/
def startByte (b : Nat) : DecState × List Char :=
  if b ≤ 0x7F then
    (DecState.init, [Char.ofNat b])
  else if 0xC2 ≤ b ∧ b ≤ 0xDF then
    ({ codepoint := b &&& 0x1F, bytesNeeded := 1, bytesSeen := 0,
       lower := 0x80, upper := 0xBF }, [])
  else if 0xE0 ≤ b ∧ b ≤ 0xEF then
    ({ codepoint := b &&& 0x0F, bytesNeeded := 2, bytesSeen := 0,
       lower := if b = 0xE0 then 0xA0 else 0x80,
       upper := if b = 0xED then 0x9F else 0xBF }, [])
  else if 0xF0 ≤ b ∧ b ≤ 0xF4 then
    ({ codepoint := b &&& 0x07, bytesNeeded := 3, bytesSeen := 0,
       lower := if b = 0xF0 then 0x90 else 0x80,
       upper := if b = 0xF4 then 0x8F else 0xBF }, [])
  else
    (DecState.init, [repl])

/-- One step of the WHATWG UTF-8 decoder.  Inside a multi-byte sequence an
out-of-range byte emits U+FFFD and is reprocessed as a fresh start byte;
a valid continuation byte widens the code point and either finishes the
sequence or waits for more bytes. -/
def stepByte (s : DecState) (b : Nat) : DecState × List Char :=
  if s.bytesNeeded = 0 then
    startByte b
  else if b < s.lower ∨ s.upper < b then
    ((startByte b).1, repl :: (startByte b).2)
  else
    if s.bytesSeen + 1 = s.bytesNeeded then
      (DecState.init, [Char.ofNat (s.codepoint <<< 6 ||| (b &&& 0x3F))])
    else
      ({ codepoint := s.codepoint <<< 6 ||| (b &&& 0x3F),
         bytesNeeded := s.bytesNeeded, bytesSeen := s.bytesSeen + 1,
         lower := 0x80, upper := 0xBF }, [])

/-- Decode a chunk of bytes, threading the decoder state; this models one
call `decoder.decode(value, \x7b stream: true \x7d)`. -/
def decodeBytes : DecState → List Nat → DecState × List Char
  | s, [] => (s, [])
  | s, b :: rest =>
    ((decodeBytes (stepByte s b).1 rest).1,
     (stepByte s b).2 ++ (decodeBytes (stepByte s b).1 rest).2)

/-- End-of-stream flush, modelling the final argument-less
`decoder.decode()`: a dangling multi-byte sequence becomes one U+FFFD. -/
def flushDec (s : DecState) : List Char :=
  if s.bytesNeeded = 0 then [] else [repl]

/-- Decode a sequence of chunks with one shared decoder state, as the
streaming loop does (without the final flush). -/
def decodeChunks : DecState → List (List Nat) → DecState × List Char
  | s, [] => (s, [])
  | s, c :: rest =>
    ((decodeChunks (decodeBytes s c).1 rest).1,
     (decodeBytes s c).2 ++ (decodeChunks (decodeBytes s c).1 rest).2)

/-- Decoding an entire byte sequence at once, flush included: the
reference meaning of "the UTF-8 decoding of the concatenated bytes". -/
def utf8DecodeFull (bs : List Nat) : String :=
  ((decodeBytes DecState.init bs).2 ++ flushDec (decodeBytes DecState.init bs).1).asString

/-! ### `JSON.stringify` on the request payload -/

/-- Lowercase hexadecimal digit, as produced by `JSON.stringify` escapes. -/
def hexDigit (n : Nat) : Char :=
  if n < 10 then Char.ofNat (48 + n) else Char.ofNat (87 + n)

/-- Escape one character the way `JSON.stringify` quotes string
characters: quote and backslash get a backslash escape, the named control
characters get their short escapes, other control characters get a
`\u00xx` escape, and everything else is passed through. -/
def jsEscapeChar (c : Char) : String :=
  if c = '"' then "\\\""
  else if c = '\\' then "\\\\"
  else if c.toNat = 8 then "\\b"
  else if c.toNat = 9 then "\\t"
  else if c.toNat = 10 then "\\n"
  else if c.toNat = 12 then "\\f"
  else if c.toNat = 13 then "\\r"
  else if c.toNat < 32 then
    "\\u00" ++ String.mk [hexDigit (c.toNat / 16), hexDigit (c.toNat % 16)]
  else String.mk [c]

/-- `JSON.stringify` of a string value. -/
def jsonStringify (s : String) : String :=
  "\"" ++ String.join (s.data.map jsEscapeChar) ++ "\""

/-- The request body built at `JSON.stringify(\x7b prompt \x7d)`:
a one-field JSON object holding the trimmed prompt. -/
def jsonBody (prompt : String) : String :=
  "\x7b\"prompt\":" ++ jsonStringify prompt ++ "\x7d"

/-- The JavaScript `String.prototype.trim` on the input field value:
leading and trailing whitespace characters removed. -/
def jsTrim (s : String) : String :=
  ((s.data.dropWhile Char.isWhitespace).reverse.dropWhile Char.isWhitespace).reverse.asString

/-! ### The environment `send()` runs against -/

/-- A JavaScript error value as the catch block sees it: `message` is the
`.message` property (empty when absent or empty), `stringRep` is what the
value turns into when coerced into a string by `+`. -/
structure JsError where
  message : String
  stringRep : String
deriving Repr, DecidableEq

/-- What the catch block appends after `"Network error: "`: the source is
`e?.message || e`, so the message when it is truthy (non-empty), and the
string coercion of the error value otherwise. -/
def errorShown (e : JsError) : String :=
  if e.message = "" then e.stringRep else e.message

/-- A streamable response body: the byte chunks the reader delivers, and
optionally an error that the next `read()` call rejects with (after all
listed chunks were delivered).  `err = none` means the reader reports
`done` after the last chunk. -/
structure StreamBody where
  chunks : List (List Nat)
  err : Option JsError
deriving Repr, DecidableEq

/-- Outcome of the `fetch` call: either the promise rejects, or a
response arrives with a status, a body text (what `res.text()` would
return) and an optional streamable body (`res.body`, `none` when the
browser/connection exposes no stream). -/
inductive FetchResult where
  | thrown (e : JsError)
  | resp (status : Nat) (bodyText : String) (body : Option StreamBody)
deriving Repr, DecidableEq

/-- `res.ok` per the fetch specification: status in the range 200–299. -/
def resOk (status : Nat) : Bool :=
  200 ≤ status && status ≤ 299

/-- The part of the world outside the DOM that one `send()` invocation
observes: whether the optional loading overlay element exists, and what
the network does. -/
structure Env where
  overlayPresent : Bool
  fetch : FetchResult
deriving Repr, DecidableEq

/-! ### DOM side effects as an event trace -/

/-- One DOM or network side effect performed by `send()`, in program
order.  `setPrompt` is a write to the prompt input field; it is in the
vocabulary so that the frame property "the prompt field is never
written" is about the trace, not about the type. -/
inductive Event where
  | setOut (s : String)
  | appendOut (s : String)
  | setPrompt (s : String)
  | disableBtn
  | enableBtn
  | showOverlay
  | hideOverlay
  | fetchReq (url method contentType body : String)
  | scroll
deriving Repr, DecidableEq

/-- The DOM state the script touches. -/
structure Dom where
  promptValue : String
  outText : String
  sendDisabled : Bool
  overlayShown : Bool
deriving Repr, DecidableEq

/-- Apply one event to the DOM. -/
def applyEvent (d : Dom) : Event → Dom
  | .setOut s => { d with outText := s }
  | .appendOut s => { d with outText := d.outText ++ s }
  | .setPrompt s => { d with promptValue := s }
  | .disableBtn => { d with sendDisabled := true }
  | .enableBtn => { d with sendDisabled := false }
  | .showOverlay => { d with overlayShown := true }
  | .hideOverlay => { d with overlayShown := false }
  | .fetchReq _ _ _ _ => d
  | .scroll => d

/-- Replay a trace on the DOM. -/
def runEvents (d : Dom) (evs : List Event) : Dom :=
  evs.foldl applyEvent d

/-- Recognise writes to the output area. -/
def isOutEvent : Event → Bool
  | .setOut _ => true
  | .appendOut _ => true
  | _ => false

/-- Recognise network requests. -/
def isFetchEvent : Event → Bool
  | .fetchReq _ _ _ _ => true
  | _ => false

/-- Recognise writes to the prompt input field. -/
def isSetPrompt : Event → Bool
  | .setPrompt _ => true
  | _ => false

/-- Recognise the re-enabling of the submit button. -/
def isEnableBtn : Event → Bool
  | .enableBtn => true
  | _ => false

/-- Recognise the disabling of the submit button. -/
def isDisableBtn : Event → Bool
  | .disableBtn => true
  | _ => false

/-- Recognise the hiding of the loading overlay. -/
def isHideOverlay : Event → Bool
  | .hideOverlay => true
  | _ => false

/-! ### The embedded `send()` -/

/-- The streaming read loop (lines 27–32 of `app.js`): each delivered
chunk is decoded through the shared decoder state and appended to the
output area, followed by a scroll to the bottom. -/
def streamEvents : DecState → List (List Nat) → DecState × List Event
  | s, [] => (s, [])
  | s, c :: rest =>
    ((streamEvents (decodeBytes s c).1 rest).1,
     Event.appendOut (decodeBytes s c).2.asString :: Event.scroll
       :: (streamEvents (decodeBytes s c).1 rest).2)

/-- The per-chunk decoded texts that the streaming loop appends, in
order. -/
def chunkTexts : DecState → List (List Nat) → List String
  | _, [] => []
  | s, c :: rest => (decodeBytes s c).2.asString :: chunkTexts (decodeBytes s c).1 rest

/-- Events of the streaming branch (reader loop, then either the final
flush-and-scroll on `done` or the `catch` when a read rejects). -/
def streamBranch (sb : StreamBody) : List Event :=
  (streamEvents DecState.init sb.chunks).2 ++
    match sb.err with
    | none =>
      [Event.appendOut (flushDec (streamEvents DecState.init sb.chunks).1).asString,
       Event.scroll]
    | some e => [Event.setOut ("Network error: " ++ errorShown e)]

/-- Events of the body of the `try` block together with the `catch`
(lines 10–37 of `app.js`): the fetch, then one of the four outcome
branches. -/
def tryEvents (prompt : String) (fetch : FetchResult) : List Event :=
  Event.fetchReq "/chat/stream" "POST" "application/json" (jsonBody prompt) ::
    match fetch with
    | .thrown e => [Event.setOut ("Network error: " ++ errorShown e)]
    | .resp status bodyText body =>
      if resOk status = false then
        [Event.setOut ("Error " ++ toString status ++ ": " ++ bodyText)]
      else
        match body with
        | none => [Event.setOut "Streaming not supported by the browser/connection."]
        | some sb => streamBranch sb

/-- The `send()` of `src/Ashley/static/app.js`, as the ordered trace of
side effects it performs when the prompt field holds `d.promptValue` and
the environment behaves as `env`.  The early return on an empty trimmed
prompt happens before the `try`, so the `finally` events appear only on
the validated path. -/
def send (d : Dom) (env : Env) : List Event :=
  if jsTrim d.promptValue = "" then
    [Event.setOut "Please enter a message."]
  else
    (Event.setOut "" :: Event.disableBtn ::
      (if env.overlayPresent then [Event.showOverlay] else [])) ++
    tryEvents (jsTrim d.promptValue) env.fetch ++
    (Event.enableBtn :: (if env.overlayPresent then [Event.hideOverlay] else []))

/-- The `send()` of `src/unnamed/part_000`: no overlay element is used,
and the non-ok and no-body branches re-enable the button themselves
before returning, on top of the `finally` that does it again. -/
def sendNoOverlay (d : Dom) (fetch : FetchResult) : List Event :=
  if jsTrim d.promptValue = "" then
    [Event.setOut "Please enter a message."]
  else
    Event.setOut "" :: Event.disableBtn ::
    (Event.fetchReq "/chat/stream" "POST" "application/json" (jsonBody (jsTrim d.promptValue)) ::
      match fetch with
      | .thrown e => [Event.setOut ("Network error: " ++ errorShown e)]
      | .resp status bodyText body =>
        if resOk status = false then
          [Event.setOut ("Error " ++ toString status ++ ": " ++ bodyText), Event.enableBtn]
        else
          match body with
          | none =>
            [Event.setOut "Streaming not supported by the browser/connection.",
             Event.enableBtn]
          | some sb => streamBranch sb) ++
    [Event.enableBtn]

/-- How many times the overlay-free variant re-enables the submit button
on a validated invocation, by outcome: the non-ok and no-body branches
assign `disabled = false` before returning and the `finally` assigns it
again, so those two paths re-enable twice; the thrown-error and
streaming paths re-enable only in the `finally`. -/
def noOverlayEnableCount : FetchResult → Nat
  | .thrown _ => 1
  | .resp status _ body =>
    if resOk status = false then 2
    else
      match body with
      | none => 2
      | some _ => 1

/-- The key-down listener on the prompt input (lines 46–48 of `app.js`):
it calls `send()` exactly when the key is Enter and Ctrl or Meta is
held. -/
structure KeyEvent where
  key : String
  ctrlKey : Bool
  metaKey : Bool
deriving Repr, DecidableEq

/-- Whether the key-down listener invokes `send()` for this event. -/
def keydownSends (e : KeyEvent) : Bool :=
  e.key == "Enter" && (e.ctrlKey || e.metaKey)

/-! ### Decoder lemmas -/

theorem asString_append (a b : List Char) :
    (a ++ b).asString = a.asString ++ b.asString := rfl

theorem decodeBytes_append (s : DecState) (a b : List Nat) :
    decodeBytes s (a ++ b) =
      ((decodeBytes (decodeBytes s a).1 b).1,
       (decodeBytes s a).2 ++ (decodeBytes (decodeBytes s a).1 b).2) := by
  induction a generalizing s with
  | nil => simp [decodeBytes]
  | cons x xs ih => simp [decodeBytes, ih, List.append_assoc]

theorem decodeChunks_eq_flatten (s : DecState) (cs : List (List Nat)) :
    decodeChunks s cs = decodeBytes s cs.flatten := by
  induction cs generalizing s with
  | nil => simp [decodeChunks, decodeBytes]
  | cons c rest ih => simp [decodeChunks, ih, decodeBytes_append]

theorem streamEvents_fst (s : DecState) (cs : List (List Nat)) :
    (streamEvents s cs).1 = (decodeChunks s cs).1 := by
  induction cs generalizing s with
  | nil => rfl
  | cons c rest ih => simp [streamEvents, decodeChunks, ih]

/-! ### Trace replay lemmas -/

theorem runEvents_nil (d : Dom) : runEvents d [] = d := rfl

theorem runEvents_cons (d : Dom) (e : Event) (evs : List Event) :
    runEvents d (e :: evs) = runEvents (applyEvent d e) evs := rfl

theorem runEvents_append (d : Dom) (a b : List Event) :
    runEvents d (a ++ b) = runEvents (runEvents d a) b := by
  simp [runEvents, List.foldl_append]

theorem applyEvent_outText (d : Dom) (e : Event) (h : isOutEvent e = false) :
    (applyEvent d e).outText = d.outText := by
  cases e <;> first | rfl | exact absurd h (by simp [isOutEvent])

theorem applyEvent_promptValue (d : Dom) (e : Event) (h : isSetPrompt e = false) :
    (applyEvent d e).promptValue = d.promptValue := by
  cases e <;> first | rfl | exact absurd h (by simp [isSetPrompt])

theorem runEvents_outText_of_forall (d : Dom) (evs : List Event)
    (h : ∀ e ∈ evs, isOutEvent e = false) :
    (runEvents d evs).outText = d.outText := by
  induction evs generalizing d with
  | nil => rfl
  | cons e rest ih =>
    rw [runEvents_cons, ih _ (fun x hx => h x (List.mem_cons_of_mem e hx)),
      applyEvent_outText d e (h e (List.mem_cons_self e rest))]

theorem runEvents_outText_of_countP (d : Dom) (evs : List Event)
    (h : evs.countP isOutEvent = 0) :
    (runEvents d evs).outText = d.outText := by
  apply runEvents_outText_of_forall
  intro e he
  simpa using List.countP_eq_zero.mp h e he

theorem runEvents_promptValue_of_forall (d : Dom) (evs : List Event)
    (h : ∀ e ∈ evs, isSetPrompt e = false) :
    (runEvents d evs).promptValue = d.promptValue := by
  induction evs generalizing d with
  | nil => rfl
  | cons e rest ih =>
    rw [runEvents_cons, ih _ (fun x hx => h x (List.mem_cons_of_mem e hx)),
      applyEvent_promptValue d e (h e (List.mem_cons_self e rest))]

theorem runEvents_promptValue_of_countP (d : Dom) (evs : List Event)
    (h : evs.countP isSetPrompt = 0) :
    (runEvents d evs).promptValue = d.promptValue := by
  apply runEvents_promptValue_of_forall
  intro e he
  simpa using List.countP_eq_zero.mp h e he

theorem runEvents_outText_congr (d d' : Dom) (evs : List Event)
    (h : d.outText = d'.outText) :
    (runEvents d evs).outText = (runEvents d' evs).outText := by
  induction evs generalizing d d' with
  | nil => exact h
  | cons e rest ih =>
    rw [runEvents_cons, runEvents_cons]
    apply ih
    cases e <;> simp [applyEvent, h]

/-! ### Shape of the streaming part of the trace -/

theorem runEvents_streamEvents (s : DecState) (cs : List (List Nat)) (d : Dom) :
    runEvents d (streamEvents s cs).2 =
      { d with outText := d.outText ++ (decodeChunks s cs).2.asString } := by
  induction cs generalizing s d with
  | nil => simp [streamEvents, decodeChunks, runEvents, String.asString_nil, String.append_empty]
  | cons c rest ih =>
    rw [streamEvents]
    rw [runEvents_cons, runEvents_cons]
    rw [show applyEvent (applyEvent d (Event.appendOut (decodeBytes s c).2.asString))
          Event.scroll
        = { d with outText := d.outText ++ (decodeBytes s c).2.asString } from rfl]
    rw [ih]
    simp [decodeChunks, asString_append, String.append_assoc]

theorem streamEvents_filter_nil (p : Event → Bool)
    (h1 : ∀ t, p (Event.appendOut t) = false) (h2 : p Event.scroll = false)
    (s : DecState) (cs : List (List Nat)) :
    ((streamEvents s cs).2).filter p = [] := by
  induction cs generalizing s with
  | nil => simp [streamEvents]
  | cons c rest ih => simp [streamEvents, List.filter_cons, h1, h2, ih]

theorem streamEvents_countP_zero (p : Event → Bool)
    (h1 : ∀ t, p (Event.appendOut t) = false) (h2 : p Event.scroll = false)
    (s : DecState) (cs : List (List Nat)) :
    ((streamEvents s cs).2).countP p = 0 := by
  rw [List.countP_eq_length_filter, streamEvents_filter_nil p h1 h2]
  rfl

theorem streamEvents_filter_out (s : DecState) (cs : List (List Nat)) :
    ((streamEvents s cs).2).filter isOutEvent
      = (chunkTexts s cs).map Event.appendOut := by
  induction cs generalizing s with
  | nil => simp [streamEvents, chunkTexts]
  | cons c rest ih => simp [streamEvents, chunkTexts, List.filter_cons, isOutEvent, ih]

theorem runEvents_streamBranch_done (d : Dom) (chunks : List (List Nat)) :
    (runEvents d (streamBranch ⟨chunks, none⟩)).outText
      = d.outText ++ utf8DecodeFull chunks.flatten := by
  rw [streamBranch]
  rw [runEvents_append, runEvents_streamEvents]
  simp [runEvents_cons, runEvents_nil, applyEvent, streamEvents_fst, decodeChunks_eq_flatten,
    utf8DecodeFull, asString_append, String.append_assoc]

theorem runEvents_streamBranch_err (d : Dom) (chunks : List (List Nat)) (e : JsError) :
    (runEvents d (streamBranch ⟨chunks, some e⟩)).outText
      = "Network error: " ++ errorShown e := by
  rw [streamBranch]
  rw [runEvents_append, runEvents_streamEvents]
  simp [runEvents_cons, runEvents_nil, applyEvent]

/-! ### Shape of the whole `send()` trace -/

theorem send_validated (d : Dom) (env : Env) (hp : ¬ jsTrim d.promptValue = "") :
    send d env
      = (Event.setOut "" :: Event.disableBtn ::
          (if env.overlayPresent then [Event.showOverlay] else []))
        ++ tryEvents (jsTrim d.promptValue) env.fetch
        ++ (Event.enableBtn ::
          (if env.overlayPresent then [Event.hideOverlay] else [])) := by
  simp [send, hp]

theorem streamBranch_countP_zero (p : Event → Bool)
    (h1 : ∀ t, p (Event.appendOut t) = false) (h2 : p Event.scroll = false)
    (h3 : ∀ t, p (Event.setOut t) = false) (sb : StreamBody) :
    (streamBranch sb).countP p = 0 := by
  rcases sb with ⟨chunks, err⟩
  cases err <;>
    simp [streamBranch, List.countP_append, List.countP_cons, h1, h2, h3,
      streamEvents_countP_zero p h1 h2]

theorem tryEvents_countP_zero (p : Event → Bool)
    (h1 : ∀ t, p (Event.appendOut t) = false) (h2 : p Event.scroll = false)
    (h3 : ∀ t, p (Event.setOut t) = false)
    (h4 : ∀ u m c b, p (Event.fetchReq u m c b) = false)
    (prompt : String) (f : FetchResult) :
    (tryEvents prompt f).countP p = 0 := by
  cases f with
  | thrown e => simp [tryEvents, List.countP_cons, h3, h4]
  | resp status bodyText body =>
    by_cases hok : resOk status = false
    · simp [tryEvents, hok, List.countP_cons, h3, h4]
    · cases body with
      | none => simp [tryEvents, hok, List.countP_cons, h3, h4]
      | some sb =>
        cases sb with
        | mk chunks err =>
          cases err with
          | none =>
            simp [tryEvents, hok, streamBranch, List.countP_cons, List.countP_append,
              h1, h2, h4, streamEvents_countP_zero p h1 h2]
          | some e =>
            simp [tryEvents, hok, streamBranch, List.countP_cons, List.countP_append,
              h1, h2, h3, h4, streamEvents_countP_zero p h1 h2]

theorem send_outText_validated (d : Dom) (env : Env) (hp : ¬ jsTrim d.promptValue = "") :
    (runEvents d (send d env)).outText
      = (runEvents { d with outText := "" }
          (tryEvents (jsTrim d.promptValue) env.fetch)).outText := by
  rw [send_validated d env hp, runEvents_append, runEvents_append]
  rw [runEvents_outText_of_countP]
  · apply runEvents_outText_congr
    rw [runEvents_cons, runEvents_cons]
    cases hov : env.overlayPresent <;>
      simp [applyEvent, runEvents_cons, runEvents_nil]
  · cases hov : env.overlayPresent <;> simp [List.countP_cons, isOutEvent]

/-! ### The claims -/

/-- Claim C1: for every successful streamed response whose body arrives as
any list of byte chunks — any number of chunks, any boundaries, splits in
the middle of multi-byte UTF-8 characters included — the final text in
the output area equals the UTF-8 decoding of the concatenation of all
chunk bytes; the right-hand side depends only on the flattened byte list,
so the result is independent of the chunking.  Proved for both source
variants. -/
theorem send_stream_final_text (d : Dom) (ov : Bool) (status : Nat) (bodyText : String)
    (chunks : List (List Nat))
    (hp : ¬ jsTrim d.promptValue = "") (hok : resOk status = true) :
    (runEvents d (send d ⟨ov, .resp status bodyText (some ⟨chunks, none⟩)⟩)).outText
        = utf8DecodeFull chunks.flatten
      ∧ (runEvents d (sendNoOverlay d (.resp status bodyText (some ⟨chunks, none⟩)))).outText
        = utf8DecodeFull chunks.flatten := by
  have hok' : ¬ resOk status = false := by simp [hok]
  have htry : tryEvents (jsTrim d.promptValue) (.resp status bodyText (some ⟨chunks, none⟩))
      = Event.fetchReq "/chat/stream" "POST" "application/json" (jsonBody (jsTrim d.promptValue))
        :: streamBranch ⟨chunks, none⟩ := by
    simp [tryEvents, hok']
  constructor
  · rw [send_outText_validated d _ hp]
    rw [show (⟨ov, .resp status bodyText (some ⟨chunks, none⟩)⟩ : Env).fetch
        = .resp status bodyText (some ⟨chunks, none⟩) from rfl]
    rw [htry, runEvents_cons]
    rw [runEvents_streamBranch_done]
    simp [applyEvent, String.empty_append]
  · have hshape : sendNoOverlay d (.resp status bodyText (some ⟨chunks, none⟩))
        = Event.setOut "" :: Event.disableBtn ::
          ((Event.fetchReq "/chat/stream" "POST" "application/json"
              (jsonBody (jsTrim d.promptValue))
            :: streamBranch ⟨chunks, none⟩) ++ [Event.enableBtn]) := by
      simp [sendNoOverlay, hp, hok']
    rw [hshape, runEvents_cons, runEvents_cons, runEvents_append,
      runEvents_outText_of_countP _ _ (by simp [List.countP_cons, isOutEvent]),
      runEvents_cons]
    rw [runEvents_streamBranch_done]
    simp [applyEvent, String.empty_append]

/-- Witness for C1: the three bytes of "€" split across two chunks, the
boundary inside the character; the displayed text is the decoding of the
reassembled bytes. -/
theorem send_stream_final_text_witness :
    (runEvents ⟨"hi", "", false, false⟩
        (send ⟨"hi", "", false, false⟩
          ⟨true, .resp 200 "" (some ⟨[[0xE2], [0x82, 0xAC]], none⟩)⟩)).outText
      = utf8DecodeFull [0xE2, 0x82, 0xAC] := by
  have h := (send_stream_final_text ⟨"hi", "", false, false⟩ true 200 ""
    [[0xE2], [0x82, 0xAC]] (by decide) (by decide)).1
  simpa using h

/-- Claim C2: when the trimmed input is empty, the whole trace is the one
fixed message write, so in particular no network request is issued. -/
theorem send_empty_prompt (d : Dom) (env : Env) (hp : jsTrim d.promptValue = "") :
    send d env = [Event.setOut "Please enter a message."]
      ∧ (send d env).countP isFetchEvent = 0 := by
  have h1 : send d env = [Event.setOut "Please enter a message."] := by simp [send, hp]
  exact ⟨h1, by rw [h1]; rfl⟩

/-- Witness for C2: a whitespace-only input produces exactly the fixed
message and nothing else. -/
theorem send_empty_prompt_witness :
    send ⟨"   ", "old", false, false⟩ ⟨true, .thrown ⟨"x", "x"⟩⟩
      = [Event.setOut "Please enter a message."] :=
  (send_empty_prompt ⟨"   ", "old", false, false⟩ ⟨true, .thrown ⟨"x", "x"⟩⟩ (by decide)).1

/-- Counterexample to C3 as stated: on the empty-input early return —
which in the source happens before the `try`/`finally` — no cleanup
action runs at all: with the overlay present, the invocation's trace
contains zero re-enable events and zero overlay-hide events, not exactly
one of each. -/
theorem send_empty_input_no_cleanup :
    (send ⟨"", "", false, false⟩ ⟨true, .thrown ⟨"", ""⟩⟩).countP isEnableBtn = 0
      ∧ (send ⟨"", "", false, false⟩ ⟨true, .thrown ⟨"", ""⟩⟩).countP isHideOverlay = 0 := by
  decide

/-- Claim C3 (amended): for every invocation whose trimmed input is
non-empty, cleanup is performed on every exit path, with its exact count
per variant: in the app.js variant it runs exactly once — one re-enable
of the submit control, and exactly one overlay hide when the overlay
element is present; in the part_000 variant the re-enable runs once on
the thrown-error and successful-stream paths but twice on the non-2xx
and no-body paths (the branch assigns `disabled = false` before
returning and the `finally` assigns it again).  On the empty-input early
return — which precedes the `try`/`finally` in both variants — no
cleanup action runs, and the submit control is never disabled there. -/
theorem send_cleanup_exactly_once (d : Dom) (env : Env) (f : FetchResult) :
    (¬ jsTrim d.promptValue = "" →
      ((send d env).countP isEnableBtn = 1
        ∧ (send d env).countP isHideOverlay = (if env.overlayPresent then 1 else 0))
      ∧ (sendNoOverlay d f).countP isEnableBtn = noOverlayEnableCount f)
    ∧ (jsTrim d.promptValue = "" →
      ((send d env).countP isEnableBtn = 0
        ∧ (send d env).countP isHideOverlay = 0
        ∧ (send d env).countP isDisableBtn = 0)
      ∧ (sendNoOverlay d f).countP isEnableBtn = 0) := by
  constructor
  · intro hp
    have ht1 := tryEvents_countP_zero isEnableBtn (fun _ => rfl) rfl (fun _ => rfl)
      (fun _ _ _ _ => rfl) (jsTrim d.promptValue) env.fetch
    have ht2 := tryEvents_countP_zero isHideOverlay (fun _ => rfl) rfl (fun _ => rfl)
      (fun _ _ _ _ => rfl) (jsTrim d.promptValue) env.fetch
    refine ⟨⟨?_, ?_⟩, ?_⟩
    · cases hov : env.overlayPresent <;>
        simp [send_validated d env hp, hov, List.countP_append, List.countP_cons,
          isEnableBtn, ht1]
    · cases hov : env.overlayPresent <;>
        simp [send_validated d env hp, hov, List.countP_append, List.countP_cons,
          isHideOverlay, ht2]
    · have hsb := streamBranch_countP_zero isEnableBtn (fun _ => rfl) rfl (fun _ => rfl)
      cases f with
      | thrown e =>
        simp [sendNoOverlay, hp, noOverlayEnableCount, List.countP_cons,
          List.countP_append, isEnableBtn]
      | resp status bodyText body =>
        by_cases hok : resOk status = false
        · simp [sendNoOverlay, hp, hok, noOverlayEnableCount, List.countP_cons,
            List.countP_append, isEnableBtn]
        · cases body with
          | none =>
            simp [sendNoOverlay, hp, hok, noOverlayEnableCount, List.countP_cons,
              List.countP_append, isEnableBtn]
          | some sb =>
            simp [sendNoOverlay, hp, hok, noOverlayEnableCount, List.countP_cons,
              List.countP_append, isEnableBtn, hsb]
  · intro hp
    simp [send, sendNoOverlay, hp, List.countP_cons, isEnableBtn, isHideOverlay,
      isDisableBtn]

/-- Witness for the amended C3: with a non-empty prompt, a no-body 2xx
response in the app.js variant re-enables exactly once and hides the
present overlay exactly once, while a 400 response in the part_000
variant re-enables twice. -/
theorem send_cleanup_exactly_once_witness :
    ((send ⟨"hi", "", false, false⟩ ⟨true, .resp 204 "" none⟩).countP isEnableBtn = 1
      ∧ (send ⟨"hi", "", false, false⟩ ⟨true, .resp 204 "" none⟩).countP isHideOverlay = 1)
      ∧ (sendNoOverlay ⟨"hi", "", false, false⟩
          (.resp 400 "bad request" none)).countP isEnableBtn = 2 := by
  have h := (send_cleanup_exactly_once ⟨"hi", "", false, false⟩
    ⟨true, .resp 204 "" none⟩ (.resp 400 "bad request" none)).1 (by decide)
  exact ⟨⟨h.1.1, h.1.2.trans (by decide)⟩, h.2.trans (by decide)⟩

/-- Claim C4: a response with a non-success status and body text B
displays exactly "Error S: B", and the trace holds exactly one network
request — there is no retry. -/
theorem send_http_error (d : Dom) (ov : Bool) (status : Nat) (bodyText : String)
    (body : Option StreamBody)
    (hp : ¬ jsTrim d.promptValue = "") (hs : resOk status = false) :
    (runEvents d (send d ⟨ov, .resp status bodyText body⟩)).outText
        = "Error " ++ toString status ++ ": " ++ bodyText
      ∧ (send d ⟨ov, .resp status bodyText body⟩).countP isFetchEvent = 1 := by
  constructor
  · rw [send_outText_validated d _ hp]
    simp [tryEvents, hs, runEvents_cons, runEvents_nil, applyEvent]
  · rw [send_validated d _ hp]
    cases ov <;>
      simp [List.countP_append, List.countP_cons, isFetchEvent, tryEvents, hs]

/-- Witness for C4: status 400 with body "bad request" displays
"Error 400: bad request". -/
theorem send_http_error_witness :
    (runEvents ⟨"hi", "", false, false⟩
        (send ⟨"hi", "", false, false⟩ ⟨true, .resp 400 "bad request" none⟩)).outText
      = "Error 400: bad request" := by
  have h := (send_http_error ⟨"hi", "", false, false⟩ true 400 "bad request" none
    (by decide) (by decide)).1
  exact h.trans (by decide)

/-- Counterexample to C5 as stated: the source appends
`e?.message || e`, not the message unconditionally; for an error whose
message is the empty string and whose string coercion is "Error", the
display is "Network error: Error" rather than "Network error: "
followed by the (empty) message text. -/
theorem send_network_error_empty_message :
    (runEvents ⟨"hi", "", false, false⟩
        (send ⟨"hi", "", false, false⟩ ⟨true, .thrown ⟨"", "Error"⟩⟩)).outText
      ≠ "Network error: " := by
  decide

/-- Claim C5 (amended): every error thrown or rejected during the fetch
or during a stream read is caught, and the displayed text is exactly
"Network error: " followed by the error's message when that message is
non-empty, and otherwise by the error's string coercion (the source
displays `e?.message || e`). -/
theorem send_network_error_text (d : Dom) (env : Env) (e : JsError)
    (hp : ¬ jsTrim d.promptValue = "")
    (hf : env.fetch = .thrown e
      ∨ ∃ status bodyText chunks, resOk status = true
          ∧ env.fetch = .resp status bodyText (some ⟨chunks, some e⟩)) :
    (runEvents d (send d env)).outText = "Network error: " ++ errorShown e := by
  rw [send_outText_validated d env hp]
  rcases hf with hf | ⟨status, bodyText, chunks, hok, hf⟩
  · rw [hf]
    simp [tryEvents, runEvents_cons, runEvents_nil, applyEvent]
  · rw [hf]
    have hok' : ¬ resOk status = false := by simp [hok]
    rw [show tryEvents (jsTrim d.promptValue) (.resp status bodyText (some ⟨chunks, some e⟩))
        = Event.fetchReq "/chat/stream" "POST" "application/json"
            (jsonBody (jsTrim d.promptValue))
          :: streamBranch ⟨chunks, some e⟩ from by simp [tryEvents, hok']]
    rw [runEvents_cons, runEvents_streamBranch_err]

/-- Witness for the amended C5: a thrown error with message "timeout"
displays "Network error: timeout". -/
theorem send_network_error_text_witness :
    (runEvents ⟨"hi", "", false, false⟩
        (send ⟨"hi", "", false, false⟩
          ⟨true, .thrown ⟨"timeout", "Error: timeout"⟩⟩)).outText
      = "Network error: timeout" := by
  have h := send_network_error_text ⟨"hi", "", false, false⟩
    ⟨true, .thrown ⟨"timeout", "Error: timeout"⟩⟩ ⟨"timeout", "Error: timeout"⟩
    (by decide) (Or.inl rfl)
  exact h.trans (by decide)

/-- Claim C6: a successful (2xx) response without a streamable body
displays exactly the fixed unsupported-streaming message. -/
theorem send_no_stream_body (d : Dom) (ov : Bool) (status : Nat) (bodyText : String)
    (hp : ¬ jsTrim d.promptValue = "") (hok : resOk status = true) :
    (runEvents d (send d ⟨ov, .resp status bodyText none⟩)).outText
      = "Streaming not supported by the browser/connection." := by
  rw [send_outText_validated d _ hp]
  have hok' : ¬ resOk status = false := by simp [hok]
  simp [tryEvents, hok', runEvents_cons, runEvents_nil, applyEvent]

/-- Witness for C6: status 200 with `res.body` absent shows the fixed
message. -/
theorem send_no_stream_body_witness :
    (runEvents ⟨"hi", "", false, false⟩
        (send ⟨"hi", "", false, false⟩ ⟨true, .resp 200 "ignored" none⟩)).outText
      = "Streaming not supported by the browser/connection." :=
  send_no_stream_body ⟨"hi", "", false, false⟩ true 200 "ignored" (by decide) (by decide)

/-- Claim C7: for every validated request cycle, the projection of the
trace onto output-area writes is one clear (`setOut ""`) at the start of
the request, then only appends while the response is consumed, closed by
at most one overwrite — the terminal outcome message that ends the
cycle. -/
theorem send_output_discipline (d : Dom) (env : Env) (hp : ¬ jsTrim d.promptValue = "") :
    ∃ (appends : List String) (tail : List Event),
      (send d env).filter isOutEvent
          = Event.setOut "" :: (appends.map Event.appendOut ++ tail)
        ∧ (tail = [] ∨ ∃ m, tail = [Event.setOut m]) := by
  rcases env with ⟨ov, f⟩
  rw [send_validated _ _ hp]
  cases f with
  | thrown e =>
    refine ⟨[], [Event.setOut ("Network error: " ++ errorShown e)], ?_, Or.inr ⟨_, rfl⟩⟩
    cases ov <;>
      simp [tryEvents, List.filter_append, List.filter_cons, isOutEvent]
  | resp status bodyText body =>
    by_cases hok : resOk status = false
    · refine ⟨[], [Event.setOut ("Error " ++ toString status ++ ": " ++ bodyText)], ?_,
        Or.inr ⟨_, rfl⟩⟩
      cases ov <;>
        simp [tryEvents, hok, List.filter_append, List.filter_cons, isOutEvent]
    · cases body with
      | none =>
        refine ⟨[], [Event.setOut "Streaming not supported by the browser/connection."], ?_,
          Or.inr ⟨_, rfl⟩⟩
        cases ov <;>
          simp [tryEvents, hok, List.filter_append, List.filter_cons, isOutEvent]
      | some sb =>
        rcases sb with ⟨chunks, err⟩
        cases err with
        | none =>
          refine ⟨chunkTexts DecState.init chunks
              ++ [(flushDec (streamEvents DecState.init chunks).1).asString], [], ?_,
            Or.inl rfl⟩
          cases ov <;>
            simp [tryEvents, hok, streamBranch, List.filter_append, List.filter_cons,
              isOutEvent, streamEvents_filter_out]
        | some e =>
          refine ⟨chunkTexts DecState.init chunks,
            [Event.setOut ("Network error: " ++ errorShown e)], ?_, Or.inr ⟨_, rfl⟩⟩
          cases ov <;>
            simp [tryEvents, hok, streamBranch, List.filter_append, List.filter_cons,
              isOutEvent, streamEvents_filter_out]

/-- Witness for C7: a successful two-chunk stream — the output writes are
one leading clear followed by appends only. -/
theorem send_output_discipline_witness :
    ∃ (appends : List String) (tail : List Event),
      (send ⟨"hi", "", false, false⟩
          ⟨true, .resp 200 "" (some ⟨[[104], [105]], none⟩)⟩).filter isOutEvent
          = Event.setOut "" :: (appends.map Event.appendOut ++ tail)
        ∧ (tail = [] ∨ ∃ m, tail = [Event.setOut m]) :=
  send_output_discipline ⟨"hi", "", false, false⟩
    ⟨true, .resp 200 "" (some ⟨[[104], [105]], none⟩)⟩ (by decide)

/-- Claim C8: a validated invocation issues exactly one network request:
a POST to /chat/stream with content type application/json whose body is
the JSON serialization of the object holding the trimmed prompt. -/
theorem send_request_shape (d : Dom) (env : Env) (hp : ¬ jsTrim d.promptValue = "") :
    (send d env).filter isFetchEvent
      = [Event.fetchReq "/chat/stream" "POST" "application/json"
          (jsonBody (jsTrim d.promptValue))] := by
  rcases env with ⟨ov, f⟩
  rw [send_validated _ _ hp]
  have hstream := streamEvents_filter_nil isFetchEvent (fun _ => rfl) rfl
  cases f with
  | thrown e =>
    cases ov <;> simp [tryEvents, List.filter_append, List.filter_cons, isFetchEvent]
  | resp status bodyText body =>
    by_cases hok : resOk status = false
    · cases ov <;>
        simp [tryEvents, hok, List.filter_append, List.filter_cons, isFetchEvent]
    · cases body with
      | none =>
        cases ov <;>
          simp [tryEvents, hok, List.filter_append, List.filter_cons, isFetchEvent]
      | some sb =>
        rcases sb with ⟨chunks, err⟩
        cases err <;> cases ov <;>
          simp [tryEvents, hok, streamBranch, List.filter_append, List.filter_cons,
            isFetchEvent, hstream]

/-- Witness for C8: input " hi " is trimmed to "hi" and sent as the JSON
body with braces written out. -/
theorem send_request_shape_witness :
    (send ⟨" hi ", "", false, false⟩ ⟨false, .thrown ⟨"x", "x"⟩⟩).filter isFetchEvent
      = [Event.fetchReq "/chat/stream" "POST" "application/json"
          "\x7b\"prompt\":\"hi\"\x7d"] := by
  have h := send_request_shape ⟨" hi ", "", false, false⟩ ⟨false, .thrown ⟨"x", "x"⟩⟩
    (by decide)
  exact h.trans (by decide)

/-- Claim C9: on a key-down event for the Enter key, the listener invokes
send() exactly when Ctrl or Meta is held: with an accelerator modifier it
fires, without one it does not. -/
theorem keydown_enter_accel (e : KeyEvent) (hk : e.key = "Enter") :
    ((e.ctrlKey || e.metaKey) = true → keydownSends e = true)
      ∧ ((e.ctrlKey || e.metaKey) = false → keydownSends e = false) := by
  constructor <;> intro h <;> simp [keydownSends, hk, h]

/-- Witness for C9: Ctrl+Enter triggers a send, plain Enter does not. -/
theorem keydown_enter_accel_witness :
    keydownSends ⟨"Enter", true, false⟩ = true
      ∧ keydownSends ⟨"Enter", false, false⟩ = false :=
  ⟨(keydown_enter_accel ⟨"Enter", true, false⟩ rfl).1 rfl,
   (keydown_enter_accel ⟨"Enter", false, false⟩ rfl).2 rfl⟩

/-- Claim C10: send() never writes the prompt input field: in both source
variants, for every environment and every outcome, replaying the
invocation's trace leaves the prompt field value unchanged. -/
theorem send_preserves_prompt_field (d : Dom) (env : Env) (f : FetchResult) :
    (runEvents d (send d env)).promptValue = d.promptValue
      ∧ (runEvents d (sendNoOverlay d f)).promptValue = d.promptValue := by
  constructor
  · apply runEvents_promptValue_of_countP
    by_cases hp : jsTrim d.promptValue = ""
    · simp [send, hp, List.countP_cons, isSetPrompt]
    · rw [send_validated d env hp]
      have ht := tryEvents_countP_zero isSetPrompt (fun _ => rfl) rfl (fun _ => rfl)
        (fun _ _ _ _ => rfl) (jsTrim d.promptValue) env.fetch
      cases hov : env.overlayPresent <;>
        simp [hov, List.countP_append, List.countP_cons, isSetPrompt, ht]
  · apply runEvents_promptValue_of_countP
    by_cases hp : jsTrim d.promptValue = ""
    · simp [sendNoOverlay, hp, List.countP_cons, isSetPrompt]
    · have hsb := streamBranch_countP_zero isSetPrompt (fun _ => rfl) rfl (fun _ => rfl)
      cases f with
      | thrown e =>
        simp [sendNoOverlay, hp, List.countP_cons, List.countP_append, isSetPrompt]
      | resp status bodyText body =>
        by_cases hok : resOk status = false
        · simp [sendNoOverlay, hp, hok, List.countP_cons, List.countP_append, isSetPrompt]
        · cases body with
          | none =>
            simp [sendNoOverlay, hp, hok, List.countP_cons, List.countP_append, isSetPrompt]
          | some sb =>
            simp [sendNoOverlay, hp, hok, List.countP_cons, List.countP_append,
              isSetPrompt, hsb]

/-- In the overlay-free variant (`src/unnamed/part_000`) the non-ok and
no-body branches re-enable the submit button themselves before returning,
so together with the `finally` the re-enable runs twice on those paths. -/
theorem sendNoOverlay_double_enable :
    (sendNoOverlay ⟨"hi", "", false, false⟩ (.resp 400 "bad request" none)).countP isEnableBtn
      = 2 := by
  decide

end Ashley
